import Mathlib

/-!
# BookBazaar marketplace — verification of the storage and checkout core

Shallow embedding of the server core of the BookBazaar marketplace:
the in-memory record store (`MemStorage` in the storage module), the
checkout sequence and the surrounding route handlers (`routes.ts`), and
the bearer-token gate (`authenticateToken`).

Modelling conventions:
* A TypeScript `Map<number, T>` keyed by a monotonically assigned id is
  modelled as a `List T` in insertion order (`Array.from(map.values())`
  iterates in insertion order); `map.get` is `List.find?` on the id,
  `map.set` on an existing key replaces the (unique) entry in place, and
  `map.delete` removes it.
* Decimal columns (`price`, `total`) are strings in the TypeScript data
  model (drizzle `decimal` ↔ string); they stay opaque `String`s here.
  The checkout route stores `total.toString()`; the caller-supplied total
  enters the model already as its string rendering.
* `Date` timestamps become `Nat`; each mutating call that stamps
  `new Date()` takes the current time as an explicit `now` argument.
* The user table is not modelled: no claim under check touches it; user
  ids occur only as opaque `Nat`s.
-/

/-- A book listing (`books` table / `Book` type in the shared schema). -/
structure Book where
  id : Nat
  title : String
  author : String
  description : String
  price : String
  condition : String
  category : String
  imageUrl : Option String
  sellerId : Nat
  isAvailable : Bool
  createdAt : Nat
deriving DecidableEq, Repr

/-- An order (`orders` table). -/
structure Order where
  id : Nat
  buyerId : Nat
  total : String
  status : String
  createdAt : Nat
deriving DecidableEq, Repr

/-- An order line item (`order_items` table); `price` is captured at purchase. -/
structure OrderItem where
  id : Nat
  orderId : Nat
  bookId : Nat
  price : String
deriving DecidableEq, Repr

/-- A buyer–seller message (`messages` table). -/
structure Message where
  id : Nat
  senderId : Nat
  receiverId : Nat
  bookId : Option Nat
  content : String
  createdAt : Nat
deriving DecidableEq, Repr

/-- A cart entry (`cart_items` table). -/
structure CartItem where
  id : Nat
  buyerId : Nat
  bookId : Nat
  addedAt : Nat
deriving DecidableEq, Repr

/-- `InsertOrder`: the fields `createOrder` receives (id and createdAt are assigned). -/
structure InsertOrder where
  buyerId : Nat
  total : String
  status : String
deriving DecidableEq, Repr

/-- `InsertOrderItem`: the fields `createOrderItem` receives. -/
structure InsertOrderItem where
  orderId : Nat
  bookId : Nat
  price : String
deriving DecidableEq, Repr

/-- `InsertCartItem`: the fields `addToCart` receives. -/
structure InsertCartItem where
  buyerId : Nat
  bookId : Nat
deriving DecidableEq, Repr

/-- `InsertMessage`: the fields `createMessage` receives. -/
structure InsertMessage where
  senderId : Nat
  receiverId : Nat
  bookId : Option Nat
  content : String
deriving DecidableEq, Repr

/-- `Partial<InsertBook>`: the partial update `updateBook` merges onto a book
with the JavaScript spread `{...book, ...updateData}`. `InsertBook` omits
`id`, `createdAt`, `sellerId`, so those are never overridden. -/
structure BookUpd where
  title : Option String
  author : Option String
  description : Option String
  price : Option String
  condition : Option String
  category : Option String
  imageUrl : Option (Option String)
  isAvailable : Option Bool
deriving DecidableEq, Repr

/-- `{...book, ...updateData}`: fields present in the update override. -/
def mergeBook (b : Book) (u : BookUpd) : Book :=
  { id := b.id
    title := u.title.getD b.title
    author := u.author.getD b.author
    description := u.description.getD b.description
    price := u.price.getD b.price
    condition := u.condition.getD b.condition
    category := u.category.getD b.category
    imageUrl := u.imageUrl.getD b.imageUrl
    sellerId := b.sellerId
    isAvailable := u.isAvailable.getD b.isAvailable
    createdAt := b.createdAt }

/-- The `{ isAvailable: false }` update the checkout loop passes to `updateBook`. -/
def availFalseUpd : BookUpd :=
  { title := none, author := none, description := none, price := none
    condition := none, category := none, imageUrl := none
    isAvailable := some false }

/-- The in-memory store `MemStorage`: one insertion-ordered table per entity
kind plus the monotone id counters. -/
structure MemStorage where
  books : List Book
  orders : List Order
  orderItems : List OrderItem
  messages : List Message
  cartItems : List CartItem
  currentBookId : Nat
  currentOrderId : Nat
  currentOrderItemId : Nat
  currentMessageId : Nat
  currentCartItemId : Nat
deriving DecidableEq, Repr

/-- The store a fresh `MemStorage()` starts from. -/
def emptyStorage : MemStorage :=
  { books := [], orders := [], orderItems := [], messages := [], cartItems := []
    currentBookId := 1, currentOrderId := 1, currentOrderItemId := 1
    currentMessageId := 1, currentCartItemId := 1 }

/-- `Map.set(id, nb)` on an existing key: replace the (first) entry whose id
matches; later entries are untouched. -/
def setBook : List Book → Nat → Book → List Book
  | [], _, _ => []
  | x :: xs, id, nb => if x.id == id then nb :: xs else x :: setBook xs id nb

/-- Case-insensitive JS `String.toLowerCase` (ASCII view). -/
def lowerStr (s : String) : String :=
  String.mk (s.data.map Char.toLower)

/-- Whether the first character list begins the second. -/
def leads : List Char → List Char → Bool
  | [], _ => true
  | _ :: _, [] => false
  | a :: as, b :: bs => a == b && leads as bs

/-- Whether `needle` occurs contiguously inside `hay` (JS `String.includes`). -/
def occursIn (needle : List Char) : List Char → Bool
  | [] => needle.isEmpty
  | c :: t => leads needle (c :: t) || occursIn needle t

/-- JS `hay.includes(needle)` on strings. -/
def strContains (hay needle : String) : Bool :=
  occursIn needle.data hay.data

/-- `MemStorage.getBooks`: only available books, then the optional category,
condition and case-insensitive substring filters. A query parameter that is
absent or the empty string is falsy in JS, so it applies no filter. -/
def getBooks (s : MemStorage) (category condition search : Option String) : List Book :=
  let bs := s.books.filter (fun b => b.isAvailable)
  let bs := match category with
    | some c => if c.isEmpty then bs else bs.filter (fun b => b.category == c)
    | none => bs
  let bs := match condition with
    | some c => if c.isEmpty then bs else bs.filter (fun b => b.condition == c)
    | none => bs
  match search with
  | some q =>
    if q.isEmpty then bs else
      let t := lowerStr q
      bs.filter (fun b =>
        strContains (lowerStr b.title) t ||
        strContains (lowerStr b.author) t ||
        strContains (lowerStr b.description) t)
  | none => bs

/-- `MemStorage.getBook`: `this.books.get(id)`. -/
def getBook (s : MemStorage) (id : Nat) : Option Book :=
  s.books.find? (fun b => b.id == id)

/-- `MemStorage.getBooksBySeller`. -/
def getBooksBySeller (s : MemStorage) (sellerId : Nat) : List Book :=
  s.books.filter (fun b => b.sellerId == sellerId)

/-- `MemStorage.updateBook`: get, merge, set; `undefined` when the id is absent. -/
def updateBook (s : MemStorage) (id : Nat) (u : BookUpd) : Option Book × MemStorage :=
  match s.books.find? (fun b => b.id == id) with
  | none => (none, s)
  | some b =>
    let nb := mergeBook b u
    (some nb, { s with books := setBook s.books id nb })

/-- `MemStorage.deleteBook`: `this.books.delete(id)`, reporting whether a
record was removed. -/
def deleteBook (s : MemStorage) (id : Nat) : Bool × MemStorage :=
  ((s.books.find? (fun b => b.id == id)).isSome,
   { s with books := s.books.filter (fun b => b.id != id) })

/-- `MemStorage.getOrdersByBuyer`. -/
def getOrdersByBuyer (s : MemStorage) (buyerId : Nat) : List Order :=
  s.orders.filter (fun o => o.buyerId == buyerId)

/-- `MemStorage.createOrder`: assign the next order id, stamp the time, insert. -/
def createOrder (s : MemStorage) (io : InsertOrder) (now : Nat) : Order × MemStorage :=
  let o : Order :=
    { id := s.currentOrderId, buyerId := io.buyerId, total := io.total
      status := io.status, createdAt := now }
  (o, { s with orders := s.orders ++ [o], currentOrderId := s.currentOrderId + 1 })

/-- `MemStorage.getOrderItems`. -/
def getOrderItems (s : MemStorage) (orderId : Nat) : List OrderItem :=
  s.orderItems.filter (fun x => x.orderId == orderId)

/-- `MemStorage.createOrderItem`: assign the next order-item id and insert. -/
def createOrderItem (s : MemStorage) (ii : InsertOrderItem) : OrderItem × MemStorage :=
  let x : OrderItem :=
    { id := s.currentOrderItemId, orderId := ii.orderId, bookId := ii.bookId
      price := ii.price }
  (x, { s with orderItems := s.orderItems ++ [x]
               currentOrderItemId := s.currentOrderItemId + 1 })

/-- `MemStorage.getMessagesBetweenUsers` (identically filtered and sorted in
`DatabaseStorage`): messages between the two users in either direction,
stably sorted ascending by creation time (`sort((a, b) => a.createdAt -
b.createdAt)`). -/
def getMessagesBetweenUsers (s : MemStorage) (user1Id user2Id : Nat) : List Message :=
  (s.messages.filter (fun m =>
      (m.senderId == user1Id && m.receiverId == user2Id) ||
      (m.senderId == user2Id && m.receiverId == user1Id))).mergeSort
    (fun a b => a.createdAt ≤ b.createdAt)

/-- `MemStorage.createMessage`. -/
def createMessage (s : MemStorage) (im : InsertMessage) (now : Nat) : Message × MemStorage :=
  let m : Message :=
    { id := s.currentMessageId, senderId := im.senderId, receiverId := im.receiverId
      bookId := im.bookId, content := im.content, createdAt := now }
  (m, { s with messages := s.messages ++ [m], currentMessageId := s.currentMessageId + 1 })

/-- `MemStorage.getCartItems`. -/
def getCartItems (s : MemStorage) (buyerId : Nat) : List CartItem :=
  s.cartItems.filter (fun ci => ci.buyerId == buyerId)

/-- `MemStorage.addToCart`: unconditionally assign the next cart-item id and
insert; there is no lookup of an existing (buyer, book) entry. -/
def addToCart (s : MemStorage) (ins : InsertCartItem) (now : Nat) : CartItem × MemStorage :=
  let ci : CartItem :=
    { id := s.currentCartItemId, buyerId := ins.buyerId, bookId := ins.bookId
      addedAt := now }
  (ci, { s with cartItems := s.cartItems ++ [ci]
                currentCartItemId := s.currentCartItemId + 1 })

/-- `MemStorage.removeFromCart`: find the first entry of this buyer for this
book and delete it by its id; report whether one was removed. -/
def removeFromCart (s : MemStorage) (buyerId bookId : Nat) : Bool × MemStorage :=
  match s.cartItems.find? (fun ci => ci.buyerId == buyerId && ci.bookId == bookId) with
  | none => (false, s)
  | some item =>
    (true, { s with cartItems := s.cartItems.filter (fun ci => ci.id != item.id) })

/-- `MemStorage.clearCart`: delete every cart entry of the buyer. -/
def clearCart (s : MemStorage) (buyerId : Nat) : MemStorage :=
  { s with cartItems := s.cartItems.filter (fun ci => ci.buyerId != buyerId) }

/-! ## Route layer (`routes.ts`) -/

/-- The identity `jwt.verify` attaches to the request (`req.user`). -/
structure AuthUser where
  userId : Nat
  email : String
  role : String
deriving DecidableEq, Repr

/-- Outcome of the `authenticateToken` middleware: either an early JSON
rejection with an HTTP status, or the request proceeds with `req.user` set. -/
inductive AuthResult where
  | reject (status : Nat) (message : String)
  | proceed (user : AuthUser)
deriving DecidableEq, Repr

/-- The HTTP status of a rejection, `none` when the request proceeds. -/
def authStatus : AuthResult → Option Nat
  | .reject st _ => some st
  | .proceed _ => none

/-- JS `str.split(' ')` on a character list: the chunks between space
characters; the empty string splits to `[""]`. -/
def splitSpChars : List Char → List Char → List String
  | [], acc => [String.mk acc.reverse]
  | c :: cs, acc =>
    if c == ' ' then String.mk acc.reverse :: splitSpChars cs []
    else splitSpChars cs (c :: acc)

/-- JS `str.split(' ')`. -/
def splitSp (s : String) : List String :=
  splitSpChars s.data []

/-- `authHeader && authHeader.split(' ')[1]` followed by the `if (!token)`
falsiness test: the bearer token, when one is present and non-empty (an
absent split component and the empty string are both falsy). -/
def extractToken : Option String → Option String
  | none => none
  | some h =>
    match (splitSp h)[1]? with
    | none => none
    | some t => if t.isEmpty then none else some t

/-- `authenticateToken` middleware: 401 when no token is presented, 403 when
`jwt.verify` fails (invalid or expired token), otherwise proceed with the
verified identity. `verify` abstracts `jwt.verify` against the secret:
`none` models a verification error. The middleware touches no storage. -/
def authenticateToken (verify : String → Option AuthUser) (authHeader : Option String) :
    AuthResult :=
  match extractToken authHeader with
  | none => .reject 401 "Access token required"
  | some tok =>
    match verify tok with
    | none => .reject 403 "Invalid token"
    | some u => .proceed u

/-- The inline role gate of `POST /api/books`: sellers only. `none` means the
check passes. -/
def sellerOnlyGate (u : AuthUser) : Option (Nat × String) :=
  if u.role != "seller" then some (403, "Only sellers can create books") else none

/-- Response of `POST /api/orders`. -/
inductive OrderResp where
  | created (order : Order)
  | badRequest (message : String)
deriving DecidableEq, Repr

/-- The HTTP status the checkout handler sends with each response shape. -/
def orderRespStatus : OrderResp → Nat
  | .created _ => 201
  | .badRequest _ => 400

/-- The `for (const cartItem of cartItems)` loop of the checkout handler:
look each carted book up in the current store; when found, create an order
line capturing the book's current price and mark the book unavailable;
when the book has vanished, silently do nothing for that entry. -/
def processCartItems (oid : Nat) : List CartItem → MemStorage → MemStorage
  | [], s => s
  | ci :: rest, s =>
    match getBook s ci.bookId with
    | none => processCartItems oid rest s
    | some book =>
      let s1 := (createOrderItem s
        { orderId := oid, bookId := ci.bookId, price := book.price }).2
      let s2 := (updateBook s1 ci.bookId availFalseUpd).2
      processCartItems oid rest s2

/-- `POST /api/orders` handler: read the buyer's cart; reject 400 on an empty
cart; otherwise create the completed order with the caller-supplied total,
run the per-item loop, clear the cart and return the order with 201. -/
def postOrders (s : MemStorage) (userId : Nat) (total : String) (now : Nat) :
    OrderResp × MemStorage :=
  let cart := getCartItems s userId
  if cart.length == 0 then (.badRequest "Cart is empty", s)
  else
    let (order, s1) := createOrder s
      { buyerId := userId, total := total, status := "completed" } now
    let s2 := processCartItems order.id cart s1
    let s3 := clearCart s2 userId
    (.created order, s3)

/-- `GET /api/books/:id` handler: 404 when the id is absent, otherwise 200
with the book — no availability filter. -/
def getBookRoute (s : MemStorage) (id : Nat) : Nat × Option Book :=
  match getBook s id with
  | none => (404, none)
  | some b => (200, some b)

/-- `DELETE /api/books/:id` handler: 404 when absent, 403 when the caller is
not the owning seller, otherwise delete and 204. -/
def deleteBookRoute (s : MemStorage) (userId id : Nat) : Nat × MemStorage :=
  match getBook s id with
  | none => (404, s)
  | some book =>
    if book.sellerId != userId then (403, s)
    else (204, (deleteBook s id).2)

/-- `POST /api/cart` handler body: add the parsed (buyer, book) pair to the
cart and return the created entry with 201. -/
def postCart (s : MemStorage) (userId bookId : Nat) (now : Nat) :
    CartItem × MemStorage :=
  addToCart s { buyerId := userId, bookId := bookId } now

/-! ## Derived notions used by the statements -/

/-- A book with its availability flag blanked: the part of a book record the
checkout loop never changes (it only ever writes `isAvailable`). -/
def bookCore (b : Book) : Book :=
  { b with isAvailable := false }

/-- The price of the book currently stored under `id` (defaulting when absent). -/
def priceOf (s : MemStorage) (id : Nat) : String :=
  ((getBook s id).map Book.price).getD ""

/-- The spec's cart invariant, as stated: a buyer's cart entries reference
each listing at most once (functional key buyer × listing). -/
def cartKeyUnique (s : MemStorage) (buyerId : Nat) : Prop :=
  (getCartItems s buyerId).Pairwise (fun a b => a.bookId ≠ b.bookId)

/-- The invariant the store actually maintains on cart entries: entry ids are
pairwise distinct and all below the running counter. -/
def cartIdsOk (s : MemStorage) : Prop :=
  s.cartItems.Pairwise (fun a b => a.id ≠ b.id) ∧
  ∀ ci ∈ s.cartItems, ci.id < s.currentCartItemId

/-! ## Concrete stores used by witnesses and counterexamples -/

/-- A sold (unavailable) listing. -/
def bookSold : Book :=
  { id := 1, title := "Dune", author := "Herbert", description := "Sci-fi classic"
    price := "12.50", condition := "good", category := "fiction", imageUrl := none
    sellerId := 2, isAvailable := false, createdAt := 0 }

/-- A store holding only the sold listing. -/
def storeSold : MemStorage :=
  { emptyStorage with books := [bookSold], currentBookId := 2 }

/-- A verifier that accepts no token, as `jwt.verify` behaves on a garbage or
expired token. -/
def rejectAllTokens : String → Option AuthUser := fun _ => none

/-- The store after buyer 1 adds listing 1 to the cart twice in a row. -/
def cartDupStore : MemStorage :=
  (addToCart (addToCart emptyStorage { buyerId := 1, bookId := 1 } 0).2
    { buyerId := 1, bookId := 1 } 1).2

/-! ## C4 — checkout on an empty cart -/

/-- C4: for every buyer whose cart is empty, `POST /api/orders` answers 400
"Cart is empty" and returns the store unchanged: no Order, no OrderLine, no
side effect of any kind. -/
theorem checkout_empty_cart (s : MemStorage) (buyer : Nat) (total : String) (now : Nat)
    (h : getCartItems s buyer = []) :
    postOrders s buyer total now = (.badRequest "Cart is empty", s) ∧
    orderRespStatus (postOrders s buyer total now).1 = 400 := by
  constructor
  · simp [postOrders, h]
  · simp [postOrders, h, orderRespStatus]

/-- C4 witness: the empty store at buyer 1. -/
theorem checkout_empty_cart_witness :
    getCartItems emptyStorage 1 = [] ∧
    postOrders emptyStorage 1 "10.00" 0 = (.badRequest "Cart is empty", emptyStorage) :=
  ⟨rfl, (checkout_empty_cart emptyStorage 1 "10.00" 0 rfl).1⟩

/-! ## C9 — fetch-by-id ignores the availability flag -/

/-- C9: `getBook` does not filter on `isAvailable`: a listing present in the
store with `isAvailable = false` is still returned, and `GET /api/books/:id`
answers 200 with it; only an absent id yields 404. -/
theorem getBook_ignores_availability (s : MemStorage) (id : Nat) :
    (∀ b, getBook s id = some b → b.isAvailable = false →
      getBookRoute s id = (200, some b)) ∧
    (getBook s id = none → getBookRoute s id = (404, none)) := by
  refine ⟨fun b h _ => ?_, fun h => ?_⟩
  · simp [getBookRoute, h]
  · simp [getBookRoute, h]

/-- C9 witness: the sold listing is still served with 200. -/
theorem getBook_ignores_availability_witness :
    getBook storeSold 1 = some bookSold ∧ bookSold.isAvailable = false ∧
    getBookRoute storeSold 1 = (200, some bookSold) :=
  ⟨rfl, rfl, (getBook_ignores_availability storeSold 1).1 bookSold rfl rfl⟩

/-! ## C10 — deleting a listing leaves cart entries in place -/

/-- C10: `deleteBook` removes only the book record: every other table,
including every buyer's cart entries, is untouched, the deleted id no longer
resolves, and the `DELETE /api/books/:id` handler likewise never touches the
cart (which is what makes checkout's vanished-listing skip reachable). -/
theorem deleteBook_cart_frame (s : MemStorage) (id buyer userId : Nat) :
    (deleteBook s id).2.cartItems = s.cartItems ∧
    (deleteBook s id).2.orders = s.orders ∧
    (deleteBook s id).2.orderItems = s.orderItems ∧
    (deleteBook s id).2.messages = s.messages ∧
    getCartItems (deleteBook s id).2 buyer = getCartItems s buyer ∧
    getBook (deleteBook s id).2 id = none ∧
    (deleteBookRoute s userId id).2.cartItems = s.cartItems ∧
    getCartItems (deleteBookRoute s userId id).2 buyer = getCartItems s buyer := by
  have hdel : getBook (deleteBook s id).2 id = none := by
    simp only [getBook, deleteBook, List.find?_eq_none]
    intro x hx
    have := (List.mem_filter.mp hx).2
    simpa using this
  refine ⟨rfl, rfl, rfl, rfl, rfl, hdel, ?_, ?_⟩ <;>
  · unfold deleteBookRoute
    cases hb : getBook s id with
    | none => rfl
    | some b =>
      by_cases hs : (b.sellerId != userId) = true
      · simp [hs]
      · simp [hs, deleteBook, getCartItems]

/-! ## C8 — message threads are symmetric and sorted -/

/-- C8: for every store and pair of users, the message thread is the same
list whichever user is passed first, and it is sorted ascending by creation
time. -/
theorem messages_symmetric_sorted (s : MemStorage) (a b : Nat) :
    getMessagesBetweenUsers s a b = getMessagesBetweenUsers s b a ∧
    (getMessagesBetweenUsers s a b).Pairwise
      (fun m₁ m₂ => m₁.createdAt ≤ m₂.createdAt) := by
  constructor
  · unfold getMessagesBetweenUsers
    congr 1
    apply List.filter_congr
    intro m _
    exact Bool.or_comm _ _
  · have h := @List.sorted_mergeSort Message
      (fun m₁ m₂ : Message => decide (m₁.createdAt ≤ m₂.createdAt))
      (fun x y z hxy hyz => by
        simp only [decide_eq_true_eq] at *
        omega)
      (fun x y => by
        simp only [Bool.or_eq_true, decide_eq_true_eq]
        omega)
      (s.messages.filter (fun m =>
        (m.senderId == a && m.receiverId == b) ||
        (m.senderId == b && m.receiverId == a)))
    exact h.imp (fun hx => by simpa using hx)

/-! ## C3 — the bearer-credential gate -/

/-- C3 counterexample: the claim says an invalid or expired credential is
rejected with HTTP 401; the middleware in fact answers 403 "Invalid token"
when `jwt.verify` fails. Concrete input: header "Bearer bad" with a verifier
that rejects every token. -/
theorem invalid_token_cex :
    authStatus (authenticateToken rejectAllTokens (some "Bearer bad")) = some 403 ∧
    authStatus (authenticateToken rejectAllTokens (some "Bearer bad")) ≠ some 401 := by
  constructor <;> decide

/-- C3 as amended: a missing (or empty) bearer credential is rejected 401
"Access token required"; a credential the verifier refuses is rejected 403
"Invalid token" (not 401); a verified credential proceeds with the attached
identity; and the separate seller-role gate answers 403 exactly on a role
mismatch. The middleware takes no store and performs no store mutation by
construction. -/
theorem auth_gate_spec (verify : String → Option AuthUser) (h : Option String) :
    (extractToken h = none →
      authenticateToken verify h = .reject 401 "Access token required") ∧
    (∀ t, extractToken h = some t → verify t = none →
      authenticateToken verify h = .reject 403 "Invalid token") ∧
    (∀ t u, extractToken h = some t → verify t = some u →
      authenticateToken verify h = .proceed u) ∧
    (∀ u : AuthUser, u.role ≠ "seller" →
      sellerOnlyGate u = some (403, "Only sellers can create books")) ∧
    (∀ u : AuthUser, u.role = "seller" → sellerOnlyGate u = none) := by
  refine ⟨fun hn => ?_, fun t ht hv => ?_, fun t u ht hv => ?_, fun u hu => ?_, fun u hu => ?_⟩
  · simp [authenticateToken, hn]
  · simp [authenticateToken, ht, hv]
  · simp [authenticateToken, ht, hv]
  · simp [sellerOnlyGate, hu]
  · simp [sellerOnlyGate, hu]

/-- C3 witness: all three gate outcomes at concrete inputs. -/
theorem auth_gate_spec_witness :
    extractToken (some "Bearer tok") = some "tok" ∧
    rejectAllTokens "tok" = none ∧
    authenticateToken rejectAllTokens (some "Bearer tok") = .reject 403 "Invalid token" ∧
    extractToken none = none ∧
    authenticateToken rejectAllTokens none = .reject 401 "Access token required" :=
  ⟨by decide, rfl,
   (auth_gate_spec rejectAllTokens (some "Bearer tok")).2.1 "tok" (by decide) rfl,
   rfl,
   (auth_gate_spec rejectAllTokens none).1 rfl⟩

/-! ## C2 — the buyer × listing cart key -/

/-- C2 counterexample: `addToCart` inserts unconditionally, so two adds of
the same listing by the same buyer leave two cart entries with the same
(buyer, listing) key — the claimed functional key does not hold. -/
theorem cart_key_cex :
    ¬ cartKeyUnique cartDupStore 1 ∧
    (getCartItems cartDupStore 1).map (fun ci => (ci.buyerId, ci.bookId)) =
      [(1, 1), (1, 1)] := by
  constructor
  · show ¬ (getCartItems cartDupStore 1).Pairwise (fun a b => a.bookId ≠ b.bookId)
    decide
  · decide

/-- C2 as amended: the store does not enforce the buyer × listing key —
`addToCart` appends a fresh entry unconditionally, so a buyer's cart can
hold the same listing several times. What the add/remove operations do
maintain is uniqueness of the entry ids: ids are pairwise distinct and
bounded by the running counter, and each add grows the cart by exactly one
entry. -/
theorem cart_ids_invariant (s : MemStorage) (ins : InsertCartItem)
    (buyer bookId now : Nat) (h : cartIdsOk s) :
    cartIdsOk (addToCart s ins now).2 ∧
    cartIdsOk (removeFromCart s buyer bookId).2 ∧
    (addToCart s ins now).2.cartItems.length = s.cartItems.length + 1 := by
  obtain ⟨hpw, hbound⟩ := h
  refine ⟨⟨?_, ?_⟩, ?_, by simp [addToCart]⟩
  · simp only [addToCart, List.pairwise_append]
    refine ⟨hpw, by simp, ?_⟩
    intro a ha b hb
    simp only [List.mem_singleton] at hb
    subst hb
    have := hbound a ha
    dsimp only
    omega
  · simp only [addToCart]
    intro ci hci
    simp only [List.mem_append, List.mem_singleton] at hci
    rcases hci with hci | hci
    · have := hbound ci hci; omega
    · subst hci; dsimp only; omega
  · unfold removeFromCart
    cases hf : s.cartItems.find? (fun ci => ci.buyerId == buyer && ci.bookId == bookId) with
    | none => exact ⟨hpw, hbound⟩
    | some item =>
      refine ⟨hpw.sublist (List.filter_sublist _), ?_⟩
      intro ci hci
      exact hbound ci (List.mem_of_mem_filter hci)

/-- C2 witness: the amended invariant applied at the empty store. -/
theorem cart_ids_invariant_witness :
    cartIdsOk emptyStorage ∧
    (cartIdsOk (addToCart emptyStorage { buyerId := 1, bookId := 1 } 0).2 ∧
     cartIdsOk (removeFromCart emptyStorage 1 1).2 ∧
     (addToCart emptyStorage { buyerId := 1, bookId := 1 } 0).2.cartItems.length =
       emptyStorage.cartItems.length + 1) :=
  ⟨⟨List.Pairwise.nil, by intro ci hci; simp [emptyStorage] at hci⟩,
   cart_ids_invariant emptyStorage { buyerId := 1, bookId := 1 } 1 1 0
     ⟨List.Pairwise.nil, by intro ci hci; simp [emptyStorage] at hci⟩⟩

/-! ## Lemmas about the checkout loop's book updates -/

/-- Merging the `{ isAvailable: false }` update changes nothing but the
availability flag. -/
theorem bookCore_merge (b : Book) : bookCore (mergeBook b availFalseUpd) = bookCore b :=
  rfl

/-- The merged book keeps its id. -/
theorem mergeBook_id (b : Book) (u : BookUpd) : (mergeBook b u).id = b.id :=
  rfl

/-- `bookCore` keeps the id. -/
theorem bookCore_id (b : Book) : (bookCore b).id = b.id :=
  rfl

/-- Replacing the found book by its availability-merged copy leaves the
availability-blanked view of the table unchanged. -/
theorem setBook_map_core :
    ∀ (bs : List Book) (id : Nat) (b : Book),
      bs.find? (fun x => x.id == id) = some b →
      (setBook bs id (mergeBook b availFalseUpd)).map bookCore = bs.map bookCore
  | [], _, _, hfind => by simp at hfind
  | x :: xs, id, b, hfind => by
    by_cases hx : x.id = id
    · have hxb : (x.id == id) = true := beq_iff_eq.mpr hx
      simp only [List.find?, hxb, Option.some.injEq] at hfind
      subst hfind
      simp [setBook, hxb, bookCore_merge]
    · have hxb : (x.id == id) = false := beq_eq_false_iff_ne.mpr hx
      simp only [List.find?, hxb] at hfind
      simp only [setBook, hxb, Bool.false_eq_true, if_false, List.map_cons]
      rw [setBook_map_core xs id b hfind]

/-- After the availability update, the updated id resolves to the merged book. -/
theorem find?_setBook_self :
    ∀ (bs : List Book) (id : Nat) (b nb : Book),
      bs.find? (fun x => x.id == id) = some b →
      nb.id = b.id →
      (setBook bs id nb).find? (fun x => x.id == id) = some nb
  | [], _, _, _, hfind, _ => by simp at hfind
  | x :: xs, id, b, nb, hfind, hid => by
    by_cases hx : x.id = id
    · have hxb : (x.id == id) = true := beq_iff_eq.mpr hx
      simp only [List.find?, hxb, Option.some.injEq] at hfind
      subst hfind
      have hnbb : (nb.id == id) = true := beq_iff_eq.mpr (by rw [hid, hx])
      simp [setBook, List.find?, hxb, hnbb]
    · have hxb : (x.id == id) = false := beq_eq_false_iff_ne.mpr hx
      simp only [List.find?, hxb] at hfind
      simp only [setBook, hxb, Bool.false_eq_true, if_false, List.find?]
      exact find?_setBook_self xs id b nb hfind hid

/-- An id that already resolved to an unavailable book still resolves to an
unavailable book after the loop replaces some (first-matching) book by an
unavailable one. -/
theorem find?_setBook_avail :
    ∀ (bs : List Book) (id id' : Nat) (b nb : Book),
      bs.find? (fun x => x.id == id) = some b →
      b.isAvailable = false →
      nb.isAvailable = false →
      nb.id = id' →
      ∃ b', (setBook bs id' nb).find? (fun x => x.id == id) = some b' ∧
        b'.isAvailable = false
  | [], _, _, _, _, hfind, _, _, _ => by simp at hfind
  | x :: xs, id, id', b, nb, hfind, hav, hnbav, hnbid => by
    by_cases hx' : x.id = id'
    · have hxb' : (x.id == id') = true := beq_iff_eq.mpr hx'
      simp only [setBook, hxb', if_true]
      by_cases hnb : nb.id = id
      · have hnbb : (nb.id == id) = true := beq_iff_eq.mpr hnb
        exact ⟨nb, by simp [List.find?, hnbb], hnbav⟩
      · have hnbb : (nb.id == id) = false := beq_eq_false_iff_ne.mpr hnb
        have hxid : ¬ x.id = id := by
          intro hxid; exact hnb (by rw [hnbid, ← hx', hxid])
        have hxidb : (x.id == id) = false := beq_eq_false_iff_ne.mpr hxid
        simp only [List.find?, hxidb] at hfind
        exact ⟨b, by simp only [List.find?, hnbb]; exact hfind, hav⟩
    · have hxb' : (x.id == id') = false := beq_eq_false_iff_ne.mpr hx'
      simp only [setBook, hxb', Bool.false_eq_true, if_false]
      by_cases hxid : x.id = id
      · have hxidb : (x.id == id) = true := beq_iff_eq.mpr hxid
        simp only [List.find?, hxidb, Option.some.injEq] at hfind
        subst hfind
        exact ⟨x, by simp [List.find?, hxidb], hav⟩
      · have hxidb : (x.id == id) = false := beq_eq_false_iff_ne.mpr hxid
        simp only [List.find?, hxidb] at hfind
        obtain ⟨b', hb', hav'⟩ :=
          find?_setBook_avail xs id id' b nb hfind hav hnbav hnbid
        exact ⟨b', by simp only [List.find?, hxidb]; exact hb', hav'⟩

/-- Two book tables with the same availability-blanked view resolve every id
to books with the same availability-blanked content. -/
theorem find?_congr_core :
    ∀ (bs₁ bs₂ : List Book), bs₂.map bookCore = bs₁.map bookCore →
      ∀ id, Option.map bookCore (bs₂.find? (fun x => x.id == id)) =
        Option.map bookCore (bs₁.find? (fun x => x.id == id))
  | [], [], _, _ => rfl
  | [], _ :: _, h, _ => by simp at h
  | _ :: _, [], h, _ => by simp at h
  | x :: xs, y :: ys, h, id => by
    simp only [List.map_cons, List.cons.injEq] at h
    obtain ⟨hxy, hrest⟩ := h
    have hid : y.id = x.id := by
      have := congrArg Book.id hxy
      simpa [bookCore_id] using this
    by_cases hx : x.id = id
    · have hxb : (x.id == id) = true := beq_iff_eq.mpr hx
      have hyb : (y.id == id) = true := beq_iff_eq.mpr (by rw [hid, hx])
      simp [List.find?, hxb, hyb, hxy]
    · have hxb : (x.id == id) = false := beq_eq_false_iff_ne.mpr hx
      have hyb : (y.id == id) = false := beq_eq_false_iff_ne.mpr (by rw [hid]; exact hx)
      simp only [List.find?, hxb, hyb]
      exact find?_congr_core xs ys hrest id

/-- Same availability-blanked book tables: every id is present in one store
iff in the other. -/
theorem isSome_getBook_congr (s₁ s₂ : MemStorage)
    (h : s₂.books.map bookCore = s₁.books.map bookCore) (id : Nat) :
    (getBook s₂ id).isSome = (getBook s₁ id).isSome := by
  have := congrArg Option.isSome (find?_congr_core s₁.books s₂.books h id)
  simpa [getBook] using this

/-- Same availability-blanked book tables: every id has the same stored price. -/
theorem priceOf_congr (s₁ s₂ : MemStorage)
    (h : s₂.books.map bookCore = s₁.books.map bookCore) (id : Nat) :
    priceOf s₂ id = priceOf s₁ id := by
  have hmap := find?_congr_core s₁.books s₂.books h id
  have := congrArg (fun o => (Option.map Book.price o).getD "") hmap
  simpa [priceOf, getBook, Option.map_map, Function.comp] using this

/-- One iteration of the checkout loop on a carted book that still exists:
the resulting store explicitly. -/
theorem checkout_step (s : MemStorage) (ci : CartItem) (book : Book) (oid : Nat)
    (h : getBook s ci.bookId = some book) :
    (updateBook ((createOrderItem s
        { orderId := oid, bookId := ci.bookId, price := book.price }).2)
      ci.bookId availFalseUpd).2 =
    { s with
      books := setBook s.books ci.bookId (mergeBook book availFalseUpd)
      orderItems := s.orderItems ++ [⟨s.currentOrderItemId, oid, ci.bookId, book.price⟩]
      currentOrderItemId := s.currentOrderItemId + 1 } := by
  have h' : s.books.find? (fun b => b.id == ci.bookId) = some book := h
  simp only [createOrderItem, updateBook]
  rw [h']

/-- Unfolding: a carted book that has vanished is skipped. -/
theorem processCartItems_cons_none (oid : Nat) (ci : CartItem) (rest : List CartItem)
    (s : MemStorage) (hb : getBook s ci.bookId = none) :
    processCartItems oid (ci :: rest) s = processCartItems oid rest s := by
  simp only [processCartItems, hb]

/-- Unfolding: a carted book that exists is turned into an order line and
marked unavailable, then the loop continues on the updated store. -/
theorem processCartItems_cons_some (oid : Nat) (ci : CartItem) (rest : List CartItem)
    (s : MemStorage) (book : Book) (hb : getBook s ci.bookId = some book) :
    processCartItems oid (ci :: rest) s =
      processCartItems oid rest
        { s with
          books := setBook s.books ci.bookId (mergeBook book availFalseUpd)
          orderItems := s.orderItems ++ [⟨s.currentOrderItemId, oid, ci.bookId, book.price⟩]
          currentOrderItemId := s.currentOrderItemId + 1 } := by
  simp only [processCartItems, hb]
  rw [checkout_step s ci book oid hb]

/-- The checkout loop: it never touches orders or the cart, it only ever
flips availability flags on books, and it appends exactly one order line —
carrying the book's current price — for each carted book that still exists,
in cart order. -/
theorem processCartItems_spec (oid : Nat) (l : List CartItem) (s : MemStorage) :
    (processCartItems oid l s).orders = s.orders ∧
    (processCartItems oid l s).cartItems = s.cartItems ∧
    (processCartItems oid l s).books.map bookCore = s.books.map bookCore ∧
    ∃ nl, (processCartItems oid l s).orderItems = s.orderItems ++ nl ∧
      (∀ x ∈ nl, x.orderId = oid) ∧
      nl.map (fun x => (x.bookId, x.price)) =
        (l.filter (fun ci => (getBook s ci.bookId).isSome)).map
          (fun ci => (ci.bookId, priceOf s ci.bookId)) := by
  induction l generalizing s with
  | nil =>
    exact ⟨rfl, rfl, rfl, [], by simp [processCartItems], by simp, by simp [processCartItems]⟩
  | cons ci rest ih =>
    cases hb : getBook s ci.bookId with
    | none =>
      rw [processCartItems_cons_none oid ci rest s hb]
      obtain ⟨h1, h2, h3, nl, h4, h5, h6⟩ := ih s
      refine ⟨h1, h2, h3, nl, h4, h5, ?_⟩
      rw [h6]
      congr 1
      simp [List.filter_cons, hb]
    | some book =>
      rw [processCartItems_cons_some oid ci rest s book hb]
      obtain ⟨h1, h2, h3, nl, h4, h5, h6⟩ := ih
        { s with
          books := setBook s.books ci.bookId (mergeBook book availFalseUpd)
          orderItems := s.orderItems ++ [⟨s.currentOrderItemId, oid, ci.bookId, book.price⟩]
          currentOrderItemId := s.currentOrderItemId + 1 }
      have hcore : (setBook s.books ci.bookId (mergeBook book availFalseUpd)).map bookCore
          = s.books.map bookCore := setBook_map_core s.books ci.bookId book hb
      refine ⟨h1, h2, h3.trans hcore, ⟨s.currentOrderItemId, oid, ci.bookId, book.price⟩ :: nl,
        ?_, ?_, ?_⟩
      · rw [h4]
        simp
      · intro x hx
        rcases List.mem_cons.mp hx with hx | hx
        · subst hx; rfl
        · exact h5 x hx
      · have hnext : ({ s with
            books := setBook s.books ci.bookId (mergeBook book availFalseUpd)
            orderItems := s.orderItems ++ [⟨s.currentOrderItemId, oid, ci.bookId, book.price⟩]
            currentOrderItemId := s.currentOrderItemId + 1 } : MemStorage).books.map bookCore
            = s.books.map bookCore := hcore
        have hpred : ∀ ci' ∈ rest,
            (getBook { s with
              books := setBook s.books ci.bookId (mergeBook book availFalseUpd)
              orderItems := s.orderItems ++ [⟨s.currentOrderItemId, oid, ci.bookId, book.price⟩]
              currentOrderItemId := s.currentOrderItemId + 1 } ci'.bookId).isSome
            = (getBook s ci'.bookId).isSome :=
          fun ci' _ => isSome_getBook_congr s _ hnext ci'.bookId
        rw [List.filter_cons]
        simp only [hb, Option.isSome_some, if_true, List.map_cons]
        rw [List.filter_congr hpred] at h6
        have hpair : ∀ ci' ∈ rest.filter (fun ci'' => (getBook s ci''.bookId).isSome),
            ((ci' : CartItem).bookId, priceOf { s with
              books := setBook s.books ci.bookId (mergeBook book availFalseUpd)
              orderItems := s.orderItems ++ [⟨s.currentOrderItemId, oid, ci.bookId, book.price⟩]
              currentOrderItemId := s.currentOrderItemId + 1 } ci'.bookId)
            = (ci'.bookId, priceOf s ci'.bookId) := by
          intro ci' _
          rw [priceOf_congr s _ hnext ci'.bookId]
        rw [List.map_congr_left hpair] at h6
        rw [h6]
        simp [priceOf, hb]

/-- An id that resolves to an unavailable book before the loop still
resolves to an unavailable book after it: the loop never rewrites a book's
flag back to available and never deletes a book. -/
theorem processCartItems_avail (oid : Nat) (l : List CartItem) :
    ∀ (s : MemStorage) (id : Nat) (b : Book),
      getBook s id = some b → b.isAvailable = false →
      ∃ b', getBook (processCartItems oid l s) id = some b' ∧ b'.isAvailable = false := by
  induction l with
  | nil => exact fun s id b h hav => ⟨b, h, hav⟩
  | cons ci rest ih =>
    intro s id b h hav
    cases hb : getBook s ci.bookId with
    | none =>
      rw [processCartItems_cons_none oid ci rest s hb]
      exact ih s id b h hav
    | some book =>
      rw [processCartItems_cons_some oid ci rest s book hb]
      have hbid : book.id = ci.bookId := by
        have := List.find?_some hb
        simpa using this
      obtain ⟨b'', hb'', hav''⟩ := find?_setBook_avail s.books id ci.bookId b
        (mergeBook book availFalseUpd) h hav rfl hbid
      exact ih _ id b'' hb'' hav''

/-- Every carted book that exists when the loop reaches the store ends the
loop unavailable. -/
theorem processCartItems_consumes (oid : Nat) (l : List CartItem) :
    ∀ (s : MemStorage), ∀ ci ∈ l, ∀ b, getBook s ci.bookId = some b →
      ∃ b', getBook (processCartItems oid l s) ci.bookId = some b' ∧
        b'.isAvailable = false := by
  induction l with
  | nil => intro s ci hci; exact absurd hci (List.not_mem_nil ci)
  | cons ci₀ rest ih =>
    intro s ci hci b h
    cases hb : getBook s ci₀.bookId with
    | none =>
      rw [processCartItems_cons_none oid ci₀ rest s hb]
      rcases List.mem_cons.mp hci with rfl | hci'
      · rw [h] at hb; cases hb
      · exact ih s ci hci' b h
    | some book =>
      rw [processCartItems_cons_some oid ci₀ rest s book hb]
      have hbid : book.id = ci₀.bookId := by
        have := List.find?_some hb
        simpa using this
      have hcore : (setBook s.books ci₀.bookId (mergeBook book availFalseUpd)).map bookCore
          = s.books.map bookCore := setBook_map_core s.books ci₀.bookId book hb
      rcases List.mem_cons.mp hci with rfl | hci'
      · have hself : getBook
            { s with
              books := setBook s.books ci.bookId (mergeBook book availFalseUpd)
              orderItems := s.orderItems ++ [⟨s.currentOrderItemId, oid, ci.bookId, book.price⟩]
              currentOrderItemId := s.currentOrderItemId + 1 } ci.bookId
            = some (mergeBook book availFalseUpd) :=
          find?_setBook_self s.books ci.bookId book (mergeBook book availFalseUpd) hb rfl
        exact processCartItems_avail oid rest _ ci.bookId
          (mergeBook book availFalseUpd) hself rfl
      · have hnext : ({ s with
            books := setBook s.books ci₀.bookId (mergeBook book availFalseUpd)
            orderItems := s.orderItems ++ [⟨s.currentOrderItemId, oid, ci₀.bookId, book.price⟩]
            currentOrderItemId := s.currentOrderItemId + 1 } : MemStorage).books.map bookCore
            = s.books.map bookCore := hcore
        have hsome : (getBook { s with
            books := setBook s.books ci₀.bookId (mergeBook book availFalseUpd)
            orderItems := s.orderItems ++ [⟨s.currentOrderItemId, oid, ci₀.bookId, book.price⟩]
            currentOrderItemId := s.currentOrderItemId + 1 } ci.bookId).isSome = true := by
          rw [isSome_getBook_congr s _ hnext ci.bookId, h]
          rfl
        obtain ⟨b₂, hb₂⟩ := Option.isSome_iff_exists.mp hsome
        exact ih _ ci hci' b₂ hb₂

/-- Whatever filters are passed, every book `getBooks` returns is available:
the availability filter is applied first and the later filters only narrow. -/
theorem mem_getBooks_available (s : MemStorage) (c k q : Option String) :
    ∀ b ∈ getBooks s c k q, b.isAvailable = true := by
  intro b hb
  unfold getBooks at hb
  rcases c with _ | c <;> rcases k with _ | k <;> rcases q with _ | q <;>
    dsimp only at hb <;>
    [skip; skip; skip; skip; skip; skip; skip; skip] <;>
    first
      | (simp only [List.mem_filter] at hb; tauto)
      | (split at hb <;> simp only [List.mem_filter] at hb <;> tauto)
      | (split at hb <;> split at hb <;> simp only [List.mem_filter] at hb <;> tauto)
      | (split at hb <;> split at hb <;> split at hb <;>
          simp only [List.mem_filter] at hb <;> tauto)

/-- An unavailable book never appears in a `getBooks` result. -/
theorem not_mem_getBooks (s : MemStorage) (b : Book) (hav : b.isAvailable = false)
    (c k q : Option String) : b ∉ getBooks s c k q := by
  intro hmem
  have := mem_getBooks_available s c k q b hmem
  rw [hav] at this
  cases this

/-- After `clearCart`, the buyer's cart reads back empty. -/
theorem getCartItems_clearCart (s : MemStorage) (buyer : Nat) :
    getCartItems (clearCart s buyer) buyer = [] := by
  simp only [getCartItems, clearCart, List.filter_filter, List.filter_eq_nil_iff]
  intro ci _
  simp

/-- Unfolding `POST /api/orders` on a non-empty cart: the created order and
the final store, explicitly. -/
theorem postOrders_nonempty (s : MemStorage) (buyer : Nat) (total : String) (now : Nat)
    (h : getCartItems s buyer ≠ []) :
    postOrders s buyer total now =
      (.created ⟨s.currentOrderId, buyer, total, "completed", now⟩,
       clearCart
         (processCartItems s.currentOrderId (getCartItems s buyer)
           { s with orders := s.orders ++ [⟨s.currentOrderId, buyer, total, "completed", now⟩]
                    currentOrderId := s.currentOrderId + 1 })
         buyer) := by
  have hlen : ((getCartItems s buyer).length == 0) = false := by
    rw [beq_eq_false_iff_ne]
    simpa [List.length_eq_zero] using h
  simp only [postOrders, hlen, Bool.false_eq_true, if_false, createOrder]

/-! ## C1 — checkout on a fully existing cart -/

/-- C1: for every buyer with a non-empty cart of N entries whose referenced
listings all exist, checkout creates exactly one Order, status "completed",
storing the caller-supplied total verbatim, appends exactly N order lines
under that order — each capturing the referenced listing's price at checkout
time — marks every referenced listing unavailable, empties the buyer's cart,
and returns the created order with 201. -/
theorem checkout_spec (s : MemStorage) (buyer : Nat) (total : String) (now : Nat)
    (hne : getCartItems s buyer ≠ [])
    (hex : ∀ ci ∈ getCartItems s buyer, (getBook s ci.bookId).isSome = true)
    (hfresh : ∀ oi ∈ s.orderItems, oi.orderId ≠ s.currentOrderId) :
    ∃ order s' nl,
      postOrders s buyer total now = (.created order, s') ∧
      order.status = "completed" ∧
      order.total = total ∧
      order.buyerId = buyer ∧
      s'.orders = s.orders ++ [order] ∧
      s'.orderItems = s.orderItems ++ nl ∧
      nl.length = (getCartItems s buyer).length ∧
      (∀ x ∈ nl, x.orderId = order.id) ∧
      nl.map (fun x => (x.bookId, x.price)) =
        (getCartItems s buyer).map (fun ci => (ci.bookId, priceOf s ci.bookId)) ∧
      getOrderItems s' order.id = nl ∧
      (∀ ci ∈ getCartItems s buyer,
        ∃ b, getBook s' ci.bookId = some b ∧ b.isAvailable = false) ∧
      getCartItems s' buyer = [] := by
  obtain ⟨h1, h2, h3, nl, h4, h5, h6⟩ :=
    processCartItems_spec s.currentOrderId (getCartItems s buyer)
      { s with orders := s.orders ++ [⟨s.currentOrderId, buyer, total, "completed", now⟩]
               currentOrderId := s.currentOrderId + 1 }
  have hfilter : (getCartItems s buyer).filter
      (fun ci => (getBook
        { s with orders := s.orders ++ [⟨s.currentOrderId, buyer, total, "completed", now⟩]
                 currentOrderId := s.currentOrderId + 1 } ci.bookId).isSome)
      = getCartItems s buyer :=
    List.filter_eq_self.mpr (fun ci hci => hex ci hci)
  rw [hfilter] at h6
  have h6' : nl.map (fun x => (x.bookId, x.price)) =
      (getCartItems s buyer).map (fun ci => (ci.bookId, priceOf s ci.bookId)) := h6
  refine ⟨⟨s.currentOrderId, buyer, total, "completed", now⟩,
    clearCart
      (processCartItems s.currentOrderId (getCartItems s buyer)
        { s with orders := s.orders ++ [⟨s.currentOrderId, buyer, total, "completed", now⟩]
                 currentOrderId := s.currentOrderId + 1 }) buyer,
    nl, postOrders_nonempty s buyer total now hne,
    rfl, rfl, rfl, h1, h4, ?_, h5, h6', ?_, ?_, ?_⟩
  · have := congrArg List.length h6'
    simpa using this
  · simp only [getOrderItems]
    have hoi : (clearCart
        (processCartItems s.currentOrderId (getCartItems s buyer)
          { s with orders := s.orders ++ [⟨s.currentOrderId, buyer, total, "completed", now⟩]
                   currentOrderId := s.currentOrderId + 1 }) buyer).orderItems
        = s.orderItems ++ nl := h4
    rw [hoi, List.filter_append]
    have hnil : s.orderItems.filter
        (fun x => x.orderId == (⟨s.currentOrderId, buyer, total, "completed", now⟩ : Order).id)
        = [] :=
      List.filter_eq_nil_iff.mpr (fun oi hmem => by simpa using hfresh oi hmem)
    have hself : nl.filter
        (fun x => x.orderId == (⟨s.currentOrderId, buyer, total, "completed", now⟩ : Order).id)
        = nl :=
      List.filter_eq_self.mpr (fun x hx => by simpa using h5 x hx)
    rw [hnil, hself, List.nil_append]
  · intro ci hci
    obtain ⟨b, hb⟩ := Option.isSome_iff_exists.mp (hex ci hci)
    exact processCartItems_consumes s.currentOrderId (getCartItems s buyer) _ ci hci b hb
  · exact getCartItems_clearCart _ buyer

/-! ## C5 — vanished listings are skipped silently -/

/-- C5: checkout never fails on a cart entry whose listing has vanished: the
order is still created, an order line is created exactly for the entries
whose listing exists (in cart order), the vanished ids stay absent, no book
record is touched beyond availability flags, and the cart is still cleared. -/
theorem checkout_skips_vanished (s : MemStorage) (buyer : Nat) (total : String) (now : Nat)
    (hne : getCartItems s buyer ≠ []) :
    ∃ order s' nl,
      postOrders s buyer total now = (.created order, s') ∧
      s'.orders = s.orders ++ [order] ∧
      s'.orderItems = s.orderItems ++ nl ∧
      nl.map (fun x => (x.bookId, x.price)) =
        ((getCartItems s buyer).filter (fun ci => (getBook s ci.bookId).isSome)).map
          (fun ci => (ci.bookId, priceOf s ci.bookId)) ∧
      (∀ ci ∈ getCartItems s buyer, getBook s ci.bookId = none →
        getBook s' ci.bookId = none) ∧
      s'.books.map bookCore = s.books.map bookCore ∧
      getCartItems s' buyer = [] := by
  obtain ⟨h1, h2, h3, nl, h4, h5, h6⟩ :=
    processCartItems_spec s.currentOrderId (getCartItems s buyer)
      { s with orders := s.orders ++ [⟨s.currentOrderId, buyer, total, "completed", now⟩]
               currentOrderId := s.currentOrderId + 1 }
  have h6' : nl.map (fun x => (x.bookId, x.price)) =
      ((getCartItems s buyer).filter (fun ci => (getBook s ci.bookId).isSome)).map
        (fun ci => (ci.bookId, priceOf s ci.bookId)) := h6
  have h3' : (processCartItems s.currentOrderId (getCartItems s buyer)
      { s with orders := s.orders ++ [⟨s.currentOrderId, buyer, total, "completed", now⟩]
               currentOrderId := s.currentOrderId + 1 }).books.map bookCore
      = s.books.map bookCore := h3
  refine ⟨⟨s.currentOrderId, buyer, total, "completed", now⟩,
    clearCart
      (processCartItems s.currentOrderId (getCartItems s buyer)
        { s with orders := s.orders ++ [⟨s.currentOrderId, buyer, total, "completed", now⟩]
                 currentOrderId := s.currentOrderId + 1 }) buyer,
    nl, postOrders_nonempty s buyer total now hne, h1, h4, h6', ?_, h3', ?_⟩
  · intro ci _ hnone
    have hsame : (getBook
        (clearCart
          (processCartItems s.currentOrderId (getCartItems s buyer)
            { s with orders := s.orders ++ [⟨s.currentOrderId, buyer, total, "completed", now⟩]
                     currentOrderId := s.currentOrderId + 1 }) buyer)
        ci.bookId).isSome = (getBook s ci.bookId).isSome :=
      isSome_getBook_congr s _ h3' ci.bookId
    rw [hnone] at hsame
    cases hgb : getBook
        (clearCart
          (processCartItems s.currentOrderId (getCartItems s buyer)
            { s with orders := s.orders ++ [⟨s.currentOrderId, buyer, total, "completed", now⟩]
                     currentOrderId := s.currentOrderId + 1 }) buyer)
        ci.bookId with
    | none => rfl
    | some b => rw [hgb] at hsame; cases hsame
  · exact getCartItems_clearCart _ buyer

/-! ## C6 — captured prices are insulated from later listing edits -/

/-- C6: each order line created by checkout captures the referenced
listing's price as stored at the moment of checkout, and `updateBook` — the
only partial-update entry point, used by `PUT /api/books/:id` — never
touches the order-items table, so captured prices survive any later edit. -/
theorem orderline_price_capture (s : MemStorage) (buyer : Nat) (total : String) (now : Nat)
    (hne : getCartItems s buyer ≠ [])
    (hex : ∀ ci ∈ getCartItems s buyer, (getBook s ci.bookId).isSome = true) :
    (∃ order s' nl,
      postOrders s buyer total now = (.created order, s') ∧
      s'.orderItems = s.orderItems ++ nl ∧
      nl.map (fun x => (x.bookId, x.price)) =
        (getCartItems s buyer).map (fun ci => (ci.bookId, priceOf s ci.bookId))) ∧
    (∀ (t : MemStorage) (id : Nat) (u : BookUpd),
      (updateBook t id u).2.orderItems = t.orderItems) := by
  constructor
  · obtain ⟨h1, h2, h3, nl, h4, h5, h6⟩ :=
      processCartItems_spec s.currentOrderId (getCartItems s buyer)
        { s with orders := s.orders ++ [⟨s.currentOrderId, buyer, total, "completed", now⟩]
                 currentOrderId := s.currentOrderId + 1 }
    have hfilter : (getCartItems s buyer).filter
        (fun ci => (getBook
          { s with orders := s.orders ++ [⟨s.currentOrderId, buyer, total, "completed", now⟩]
                   currentOrderId := s.currentOrderId + 1 } ci.bookId).isSome)
        = getCartItems s buyer :=
      List.filter_eq_self.mpr (fun ci hci => hex ci hci)
    rw [hfilter] at h6
    have h6' : nl.map (fun x => (x.bookId, x.price)) =
        (getCartItems s buyer).map (fun ci => (ci.bookId, priceOf s ci.bookId)) := h6
    exact ⟨⟨s.currentOrderId, buyer, total, "completed", now⟩,
      clearCart
        (processCartItems s.currentOrderId (getCartItems s buyer)
          { s with orders := s.orders ++ [⟨s.currentOrderId, buyer, total, "completed", now⟩]
                   currentOrderId := s.currentOrderId + 1 }) buyer,
      nl, postOrders_nonempty s buyer total now hne, h4, h6'⟩
  · intro t id u
    unfold updateBook
    cases t.books.find? (fun b => b.id == id) <;> rfl

/-! ## C7 — consumed listings disappear from the available shelf -/

/-- C7: every listing a checkout consumes has `isAvailable = false`
afterwards, and no later `getBooks` fetch — whatever combination of
category, condition and search filters — includes it. -/
theorem checkout_hides_sold_books (s : MemStorage) (buyer : Nat) (total : String) (now : Nat)
    (hne : getCartItems s buyer ≠ []) :
    ∃ order s',
      postOrders s buyer total now = (.created order, s') ∧
      ∀ ci ∈ getCartItems s buyer, ∀ b, getBook s ci.bookId = some b →
        ∃ b', getBook s' ci.bookId = some b' ∧ b'.isAvailable = false ∧
          ∀ c k q, b' ∉ getBooks s' c k q := by
  refine ⟨⟨s.currentOrderId, buyer, total, "completed", now⟩,
    clearCart
      (processCartItems s.currentOrderId (getCartItems s buyer)
        { s with orders := s.orders ++ [⟨s.currentOrderId, buyer, total, "completed", now⟩]
                 currentOrderId := s.currentOrderId + 1 }) buyer,
    postOrders_nonempty s buyer total now hne, ?_⟩
  intro ci hci b hb
  obtain ⟨b', hb', hav'⟩ :=
    processCartItems_consumes s.currentOrderId (getCartItems s buyer)
      { s with orders := s.orders ++ [⟨s.currentOrderId, buyer, total, "completed", now⟩]
               currentOrderId := s.currentOrderId + 1 } ci hci b hb
  exact ⟨b', hb', hav', fun c k q => not_mem_getBooks _ b' hav' c k q⟩

/-! ## Concrete checkout witnesses -/

/-- An available listing priced 12.50. -/
def bookA : Book :=
  { id := 1, title := "Dune", author := "Herbert", description := "Classic"
    price := "12.50", condition := "good", category := "fiction", imageUrl := none
    sellerId := 2, isAvailable := true, createdAt := 0 }

/-- An available listing priced 8.00. -/
def bookB : Book :=
  { id := 2, title := "Emma", author := "Austen", description := "Novel"
    price := "8.00", condition := "very_good", category := "fiction", imageUrl := none
    sellerId := 2, isAvailable := true, createdAt := 0 }

/-- Buyer 1 has carted both listings. -/
def demoStore : MemStorage :=
  { books := [bookA, bookB], orders := [], orderItems := [], messages := []
    cartItems := [⟨1, 1, 1, 0⟩, ⟨2, 1, 2, 0⟩]
    currentBookId := 3, currentOrderId := 1, currentOrderItemId := 1
    currentMessageId := 1, currentCartItemId := 3 }

/-- Buyer 1 has carted listing 1 and the since-deleted listing 99. -/
def ghostStore : MemStorage :=
  { books := [bookA], orders := [], orderItems := [], messages := []
    cartItems := [⟨1, 1, 1, 0⟩, ⟨2, 1, 99, 0⟩]
    currentBookId := 2, currentOrderId := 1, currentOrderItemId := 1
    currentMessageId := 1, currentCartItemId := 3 }

/-- C1 witness: checkout of the two-book cart with total "24.49". -/
theorem checkout_spec_witness :
    getCartItems demoStore 1 ≠ [] ∧
    (∀ ci ∈ getCartItems demoStore 1, (getBook demoStore ci.bookId).isSome = true) ∧
    (∀ oi ∈ demoStore.orderItems, oi.orderId ≠ demoStore.currentOrderId) ∧
    (∃ order s' nl,
      postOrders demoStore 1 "24.49" 7 = (.created order, s') ∧
      order.status = "completed" ∧
      order.total = "24.49" ∧
      order.buyerId = 1 ∧
      s'.orders = demoStore.orders ++ [order] ∧
      s'.orderItems = demoStore.orderItems ++ nl ∧
      nl.length = (getCartItems demoStore 1).length ∧
      (∀ x ∈ nl, x.orderId = order.id) ∧
      nl.map (fun x => (x.bookId, x.price)) =
        (getCartItems demoStore 1).map (fun ci => (ci.bookId, priceOf demoStore ci.bookId)) ∧
      getOrderItems s' order.id = nl ∧
      (∀ ci ∈ getCartItems demoStore 1,
        ∃ b, getBook s' ci.bookId = some b ∧ b.isAvailable = false) ∧
      getCartItems s' 1 = []) :=
  ⟨by decide, by decide, by decide,
   checkout_spec demoStore 1 "24.49" 7 (by decide) (by decide) (by decide)⟩

/-- C5 witness: checkout of a cart whose second entry references the
vanished listing 99. -/
theorem checkout_skips_vanished_witness :
    getCartItems ghostStore 1 ≠ [] ∧
    (getBook ghostStore 99 = none) ∧
    (∃ order s' nl,
      postOrders ghostStore 1 "12.50" 3 = (.created order, s') ∧
      s'.orders = ghostStore.orders ++ [order] ∧
      s'.orderItems = ghostStore.orderItems ++ nl ∧
      nl.map (fun x => (x.bookId, x.price)) =
        ((getCartItems ghostStore 1).filter
          (fun ci => (getBook ghostStore ci.bookId).isSome)).map
          (fun ci => (ci.bookId, priceOf ghostStore ci.bookId)) ∧
      (∀ ci ∈ getCartItems ghostStore 1, getBook ghostStore ci.bookId = none →
        getBook s' ci.bookId = none) ∧
      s'.books.map bookCore = ghostStore.books.map bookCore ∧
      getCartItems s' 1 = []) :=
  ⟨by decide, by decide, checkout_skips_vanished ghostStore 1 "12.50" 3 (by decide)⟩

/-- C6 witness: price capture on the two-book cart. -/
theorem orderline_price_capture_witness :
    getCartItems demoStore 1 ≠ [] ∧
    (∀ ci ∈ getCartItems demoStore 1, (getBook demoStore ci.bookId).isSome = true) ∧
    ((∃ order s' nl,
      postOrders demoStore 1 "24.49" 7 = (.created order, s') ∧
      s'.orderItems = demoStore.orderItems ++ nl ∧
      nl.map (fun x => (x.bookId, x.price)) =
        (getCartItems demoStore 1).map
          (fun ci => (ci.bookId, priceOf demoStore ci.bookId))) ∧
    (∀ (t : MemStorage) (id : Nat) (u : BookUpd),
      (updateBook t id u).2.orderItems = t.orderItems)) :=
  ⟨by decide, by decide,
   orderline_price_capture demoStore 1 "24.49" 7 (by decide) (by decide)⟩

/-- C7 witness: the two consumed listings end unavailable and excluded. -/
theorem checkout_hides_sold_books_witness :
    getCartItems demoStore 1 ≠ [] ∧
    (∃ order s',
      postOrders demoStore 1 "24.49" 7 = (.created order, s') ∧
      ∀ ci ∈ getCartItems demoStore 1, ∀ b, getBook demoStore ci.bookId = some b →
        ∃ b', getBook s' ci.bookId = some b' ∧ b'.isAvailable = false ∧
          ∀ c k q, b' ∉ getBooks s' c k q) :=
  ⟨by decide, checkout_hides_sold_books demoStore 1 "24.49" 7 (by decide)⟩
